import Mathlib

/-
Verification of the Device Communication Coordinator of vda-ir-control.

Shallow embedding of the Python sources:
  custom_components/vda_ir_control/models.py         (data model, DeviceState.update)
  custom_components/vda_ir_control/network_coordinator.py
                                                     (NetworkDeviceCoordinator)
  custom_components/vda_ir_control/api.py            (matrix routing command generation)

Modelling conventions:
  - Python scalar values are modelled by PyVal (str / int / bool / None, plus the
    two non-scalar values a DeviceState attribute can hold: a str-to-str dict and
    a datetime).  datetime.now() is modelled by an abstract tick (Nat) passed to
    every operation that stamps a time.
  - Python dicts are insertion-ordered association lists; assignment to an
    existing key keeps its position, a new key is appended (CPython semantics).
  - asyncio tasks are modelled by a TaskSlot (no task / running / completed);
    a Task object is truthy whether or not it is done.  An asyncio.Future used
    as the single pending-response slot is a FutureSlot.
  - I/O outcomes (connection success/failure, arrival of a reply within a wait
    window) are oracle parameters of the operations that await them.
  - Exceptions escaping to the caller are modelled with Except PyErr.
  - Listener notification (_notify_state_change, which calls each listener and
    swallows listener exceptions) is modelled as an emitted event list.
-/

namespace VdaIr

/-- A Python runtime value, as far as DeviceState attributes need. -/
inductive PyVal where
  | vstr (s : String)
  | vint (n : Int)
  | vbool (b : Bool)
  | vnone
  | vdict (d : List (String × String))
  | vtime (t : Nat)
deriving DecidableEq

/-- Python str() on a PyVal.  The renderings of a dict and of a datetime are
abstracted (they are never produced by the verified code paths). -/
def pyStr : PyVal → String
  | .vstr s => s
  | .vint n => toString n
  | .vbool b => if b then "True" else "False"
  | .vnone => "None"
  | .vdict _ => "dict"
  | .vtime t => toString t

/-- Insertion-ordered dict assignment: d[k] = v (CPython keeps the position of
an existing key and appends a new one). -/
def dictSet (d : List (String × α)) (k : String) (v : α) : List (String × α) :=
  if d.any (fun kv => kv.1 = k) then
    d.map (fun kv => if kv.1 = k then (k, v) else kv)
  else
    d ++ [(k, v)]

/-- Dict lookup: d.get(k). -/
def dictGet (d : List (String × α)) (k : String) : Option α :=
  (d.find? (fun kv => kv.1 = k)).map (fun kv => kv.2)

/-- CommandFormat from device_types.py (ir_code / text / hex). -/
inductive CommandFormat where
  | ir_code
  | text
  | hex
deriving DecidableEq

/-- LineEnding from device_types.py (none / cr / lf / crlf / "!"). -/
inductive LineEnding where
  | nothing
  | cr
  | lf
  | crlf
  | exclamation
deriving DecidableEq

/-- ResponsePattern from models.py. -/
structure ResponsePattern where
  pattern : String := ""
  state_key : String := ""
  value_group : Nat := 1
  value_map : List (String × String) := []
deriving DecidableEq

/-- DeviceCommand from models.py (fields not read by the verified operations
are kept with their dataclass defaults). -/
structure DeviceCommand where
  command_id : String
  name : String
  format : CommandFormat := .text
  payload : String := ""
  line_ending : LineEnding := .nothing
  protocol : String := ""
  frequency : Nat := 38000
  is_input_option : Bool := false
  input_value : String := ""
  is_query : Bool := false
  response_patterns : List ResponsePattern := []
  poll_interval : Nat := 0
deriving DecidableEq

/-- DeviceState from models.py.  Every dataclass field is an untyped Python
attribute, so each one holds a PyVal (the dataclass type annotations are not
enforced at runtime).  The shadow list holds instance attributes created by
setattr under a class-attribute (method) name, which shadow the method. -/
structure DeviceState where
  power : PyVal := .vstr "unknown"
  current_input : PyVal := .vstr ""
  current_output : PyVal := .vstr ""
  volume : PyVal := .vint (-1)
  mute : PyVal := .vbool false
  connected : PyVal := .vbool false
  last_response : PyVal := .vstr ""
  custom_states : PyVal := .vdict []
  last_updated : PyVal := .vnone
  shadow : List (String × PyVal) := []
deriving DecidableEq

/-- The dataclass field names of DeviceState. -/
def deviceStateFields : List String :=
  ["power", "current_input", "current_output", "volume", "mute",
   "connected", "last_response", "custom_states", "last_updated"]

/-- The methods defined on class DeviceState (class attributes that make
hasattr true for a non-field name; generic object dunders are not modelled). -/
def deviceStateMethods : List String :=
  ["update", "to_dict", "from_dict"]

/-- hasattr(self, key) for a DeviceState instance. -/
def dsHasattr (key : String) : Bool :=
  deviceStateFields.contains key || deviceStateMethods.contains key

/-- setattr(self, key, value) for a DeviceState instance: a field name sets
the field; any other name creates/overwrites an instance attribute shadowing
the class attribute of that name. -/
def dsSetattr (st : DeviceState) (key : String) (v : PyVal) : DeviceState :=
  if key = "power" then { st with power := v }
  else if key = "current_input" then { st with current_input := v }
  else if key = "current_output" then { st with current_output := v }
  else if key = "volume" then { st with volume := v }
  else if key = "mute" then { st with mute := v }
  else if key = "connected" then { st with connected := v }
  else if key = "last_response" then { st with last_response := v }
  else if key = "custom_states" then { st with custom_states := v }
  else if key = "last_updated" then { st with last_updated := v }
  else { st with shadow := dictSet st.shadow key v }

/-- getattr(self, key) as a value: a field name reads the field; another name
reads the shadowing instance attribute if one exists (an unshadowed method is
a callable, not a PyVal, hence none). -/
def dsGetattr (st : DeviceState) (key : String) : Option PyVal :=
  if key = "power" then some st.power
  else if key = "current_input" then some st.current_input
  else if key = "current_output" then some st.current_output
  else if key = "volume" then some st.volume
  else if key = "mute" then some st.mute
  else if key = "connected" then some st.connected
  else if key = "last_response" then some st.last_response
  else if key = "custom_states" then some st.custom_states
  else if key = "last_updated" then some st.last_updated
  else dictGet st.shadow key

/-- DeviceState.update from models.py (lines 398-404):
if hasattr(self, key): setattr(self, key, value)
else: self.custom_states[key] = str(value)
self.last_updated = datetime.now()
The result is none exactly when Python would raise a TypeError, i.e. when the
key is not an attribute and custom_states no longer holds a dict. -/
def DeviceState.update (st : DeviceState) (key : String) (value : PyVal)
    (now : Nat) : Option DeviceState :=
  let step :=
    if dsHasattr key then
      some (dsSetattr st key value)
    else
      match st.custom_states with
      | .vdict d => some { st with custom_states := .vdict (dictSet d key (pyStr value)) }
      | _ => none
  step.map (fun st1 => { st1 with last_updated := .vtime now })

/-- NetworkConfig from models.py. -/
structure NetworkConfig where
  host : String := ""
  port : Nat := 8000
  protocol : String := "tcp"
  timeout : Nat := 5
  persistent_connection : Bool := true
  reconnect_interval : Nat := 30
deriving DecidableEq

/-- NetworkDevice from models.py (the fields the coordinator reads; commands
is an insertion-ordered dict command_id to DeviceCommand). -/
structure NetworkDevice where
  device_id : String
  name : String
  network_config : NetworkConfig := {}
  commands : List (String × DeviceCommand) := []
  global_response_patterns : List ResponsePattern := []
deriving DecidableEq

/-
Regular expressions.  _match_pattern calls re.search(pattern, response,
re.IGNORECASE).  Python's re is a library collaborator; we embed the fragment
of its language that the verified properties exercise: literal characters and
one level of capturing groups over literal alternatives, e.g. "PW(ON|STANDBY)".
compile returns none both for strings that Python rejects (re.error, e.g. an
unterminated subpattern) and for strings outside this fragment; the predicate
InvalidRx singles out a shape that Python itself rejects.
-/

/-- One element of a compiled pattern: a literal character or a capturing
group of literal alternatives. -/
inductive Rx where
  | lit (c : Char)
  | grp (alts : List (List Char))
deriving DecidableEq

/-- Regex metacharacters outside the embedded fragment (a closing parenthesis
with no opening one is also a Python re.error). -/
def isRxMeta (c : Char) : Bool :=
  c = '*' || c = '+' || c = '?' || c = '.' || c = '[' || c = ']' ||
  c = '\x7b' || c = '\x7d' || c = '\\' || c = '^' || c = '$' || c = '|' || c = ')'

/-- Split at the first closing parenthesis: returns (before, after), or none
when the input holds no closing parenthesis. -/
def splitCloseParen : List Char → Option (List Char × List Char)
  | [] => none
  | c :: rest =>
    if c = ')' then some ([], rest)
    else (splitCloseParen rest).map (fun ab => (c :: ab.1, ab.2))

/-- A group body is valid in the fragment when every character is a plain
literal or the alternation bar. -/
def grpBodyOk (cs : List Char) : Bool :=
  cs.all (fun c => !(isRxMeta c && c ≠ '|') && c ≠ '(')

/-- Compile the fragment, fuel-recursive on the remaining characters. -/
def compileAux : List Char → Nat → Option (List Rx)
  | _, 0 => none
  | [], _ => some []
  | c :: rest, fuel + 1 =>
    if c = '(' then
      match splitCloseParen rest with
      | none => none
      | some (inner, rest2) =>
        if grpBodyOk inner then
          (compileAux rest2 fuel).map (fun rs => Rx.grp (inner.splitOn '|') :: rs)
        else none
    else if isRxMeta c then none
    else (compileAux rest fuel).map (fun rs => Rx.lit c :: rs)

/-- Compile a pattern string (none: re.error or outside the fragment). -/
def rxCompile (s : String) : Option (List Rx) :=
  compileAux s.toList (s.toList.length + 1)

/-- A pattern string with an opening parenthesis and no closing one: Python
re raises re.error ("missing ), unterminated subpattern"). -/
def InvalidRx (s : String) : Prop :=
  '(' ∈ s.toList ∧ ')' ∉ s.toList

instance (s : String) : Decidable (InvalidRx s) := by
  unfold InvalidRx; infer_instance

/-- Case-insensitive character comparison (re.IGNORECASE). -/
def ciEq (a b : Char) : Bool := a.toLower = b.toLower

/-- Does the literal alternative match a prefix of the input
(case-insensitively)?  Returns the matched slice of the input and the rest. -/
def altMatch : List Char → List Char → Option (List Char × List Char)
  | [], cs => some ([], cs)
  | _ :: _, [] => none
  | a :: as_, c :: cs =>
    if ciEq a c then (altMatch as_ cs).map (fun mr => (c :: mr.1, mr.2)) else none

/-- Try the alternatives of a group left to right; the first alternative under
which the continuation (the rest of the pattern) also matches wins, as in
Python's backtracking.  The capture is the slice matched from the input. -/
def tryAlts (k : List Char → Option (List Char × List (List Char))) :
    List (List Char) → List Char → Option (List Char × List (List Char))
  | [], _ => none
  | alt :: more, cs =>
    match altMatch alt cs with
    | none => tryAlts k more cs
    | some (cap, rest) =>
      match k rest with
      | some (m, caps) => some (cap ++ m, cap :: caps)
      | none => tryAlts k more cs

/-- Match the compiled pattern against a prefix of the input.  Returns the
matched slice (taken from the input, so it keeps the input's case) and the
captured group slices in group order. -/
def matchHere : List Rx → List Char → Option (List Char × List (List Char))
  | [] => fun _ => some ([], [])
  | .lit a :: rs => fun cs =>
    match cs with
    | [] => none
    | c :: cs2 =>
      if ciEq a c then (matchHere rs cs2).map (fun mr => (c :: mr.1, mr.2)) else none
  | .grp alts :: rs => fun cs => tryAlts (matchHere rs) alts cs

/-- re.search: try each start position left to right, first hit wins. -/
def rxSearch (rs : List Rx) : List Char → Option (List Char × List (List Char))
  | [] => matchHere rs []
  | c :: cs =>
    match matchHere rs (c :: cs) with
    | some r => some r
    | none => rxSearch rs cs

/-- match.group(k): 0 is the whole match, k >= 1 the k-th capturing group;
an index beyond the number of groups raises IndexError (none here). -/
def groupGet (whole : List Char) (caps : List (List Char)) (k : Nat) :
    Option (List Char) :=
  if k = 0 then some whole else caps.get? (k - 1)

/-- A pattern that compiles and matches the line but whose configured group
index is out of range (match.group raises IndexError). -/
def groupMissing (p : ResponsePattern) (line : String) : Bool :=
  match rxCompile p.pattern with
  | none => false
  | some rs =>
    match rxSearch rs line.toList with
    | none => false
    | some (whole, caps) => (groupGet whole caps p.value_group).isNone

/-- The pure core of NetworkDeviceCoordinator._match_pattern (lines 310-347):
empty pattern: no match; re.error and IndexError are caught, logged and give
no match; on a match, the configured group is extracted and the value map
applied (dict.get(value, value)).  Returns the (state_key, value) pair that
the coordinator will write and notify. -/
def matchPattern (p : ResponsePattern) (response : String) :
    Option (String × String) :=
  if p.pattern = "" then none
  else
    match rxCompile p.pattern with
    | none => none
    | some rs =>
      match rxSearch rs response.toList with
      | none => none
      | some (whole, caps) =>
        match groupGet whole caps p.value_group with
        | none => none
        | some raw =>
          let value :=
            if p.value_map ≠ [] then
              (dictGet p.value_map (String.mk raw)).getD (String.mk raw)
            else String.mk raw
          some (p.state_key, value)

/-- All per-command response patterns of a device, in command-dict insertion
order (self._device.commands.values()). -/
def commandPatterns (dev : NetworkDevice) : List ResponsePattern :=
  (dev.commands.map (fun kv => kv.2.response_patterns)).flatten

/-- Run a list of patterns against a response line in order, threading the
device state through _match_pattern's state update and collecting the
notified (state_key, value) pairs.  A TypeError raised inside
DeviceState.update is not caught by _match_pattern and aborts the whole
parse (none). -/
def parseResponseAux (line : String) (now : Nat) :
    List ResponsePattern → DeviceState →
    Option (DeviceState × List (String × String))
  | [], st => some (st, [])
  | p :: ps, st =>
    match matchPattern p line with
    | none => parseResponseAux line now ps st
    | some (k, v) =>
      match st.update k (.vstr v) now with
      | none => none
      | some st1 =>
        (parseResponseAux line now ps st1).map
          (fun r => (r.1, (k, v) :: r.2))

/-- NetworkDeviceCoordinator._parse_response (lines 299-308): evaluate every
global pattern, then every per-command pattern of all commands, against the
line. -/
def parseResponse (dev : NetworkDevice) (st : DeviceState) (line : String)
    (now : Nat) : Option (DeviceState × List (String × String)) :=
  parseResponseAux line now
    (dev.global_response_patterns ++ commandPatterns dev) st

/-- The (state_key, value) pairs of the patterns that match the line, in
pattern order. -/
def matchList (ps : List ResponsePattern) (line : String) :
    List (String × String) :=
  ps.filterMap (fun p => matchPattern p line)

/-- Fold DeviceState.update over a list of matched (state_key, value) pairs. -/
def applyMatches (now : Nat) :
    List (String × String) → DeviceState → Option DeviceState
  | [], st => some st
  | (k, v) :: ms, st =>
    match st.update k (.vstr v) now with
    | none => none
    | some st1 => applyMatches now ms st1

/-
Payload codec (_build_payload, lines 403-414, and LINE_ENDINGS, lines 25-31).
Bytes are Nats below 256.
-/

/-- LINE_ENDINGS from network_coordinator.py as byte sequences. -/
def lineEndingBytes : LineEnding → List Nat
  | .nothing => []
  | .cr => [13]
  | .lf => [10]
  | .crlf => [13, 10]
  | .exclamation => [33]

/-- ASCII whitespace as skipped by bytes.fromhex between byte pairs. -/
def isPyWs (c : Char) : Bool :=
  c = ' ' || c = '\t' || c = '\n' || c = '\r' || c = '\x0b' || c = '\x0c'

/-- Value of one hex digit. -/
def hexDigitVal (c : Char) : Option Nat :=
  if '0' ≤ c ∧ c ≤ '9' then some (c.toNat - '0'.toNat)
  else if 'a' ≤ c ∧ c ≤ 'f' then some (c.toNat - 'a'.toNat + 10)
  else if 'A' ≤ c ∧ c ≤ 'F' then some (c.toNat - 'A'.toNat + 10)
  else none

/-- bytes.fromhex: whitespace is skipped between pairs, the two digits of a
pair must be adjacent, anything else raises ValueError (none). -/
def fromhexAux : List Char → Option (List Nat)
  | [] => some []
  | c :: rest =>
    if isPyWs c then fromhexAux rest
    else
      match hexDigitVal c, rest with
      | some hi, c2 :: rest2 =>
        match hexDigitVal c2 with
        | some lo => (fromhexAux rest2).map (fun bs => (16 * hi + lo) :: bs)
        | none => none
      | _, _ => none

/-- bytes.fromhex on a string. -/
def pyFromhex (s : String) : Option (List Nat) :=
  fromhexAux s.toList

/-- Remove every space character (str.replace(" ", "")). -/
def removeSpaces (s : String) : String :=
  String.mk (s.toList.filter (fun c => c ≠ ' '))

/-- UTF-8 encoding of a string as a byte list. -/
def utf8Bytes (s : String) : List Nat :=
  (s.toList.flatMap String.utf8EncodeChar).map (fun b => b.toNat)

/-- NetworkDeviceCoordinator._build_payload (lines 403-414): hex format
decodes the space-stripped payload with bytes.fromhex (ValueError propagates:
none); any other format encodes the payload as UTF-8; the line-ending bytes
are appended.  LINE_ENDINGS.get(key, b"") is total over the enum. -/
def buildPayload (cmd : DeviceCommand) : Option (List Nat) :=
  let body :=
    match cmd.format with
    | .hex => pyFromhex (removeSpaces cmd.payload)
    | _ => some (utf8Bytes cmd.payload)
  body.map (fun bs => bs ++ lineEndingBytes cmd.line_ending)

/-
NetworkDeviceCoordinator state machine.
-/

/-- An asyncio task slot: no task object / a running task / a task object
that has completed.  A Task object is truthy whether or not it is done. -/
inductive TaskSlot where
  | noTask
  | running
  | done
deriving DecidableEq

/-- The single pending-response asyncio.Future slot: no future, an
unresolved future, or a future resolved with a response line. -/
inductive FutureSlot where
  | noFuture
  | pending
  | resolved (line : String)
deriving DecidableEq

/-- future.done(). -/
def FutureSlot.isDone : FutureSlot → Bool
  | .resolved _ => true
  | _ => false

/-- Outcome of one transport connection attempt (the awaited I/O). -/
inductive ConnectOutcome where
  | ok
  | timedOut
  | osError
deriving DecidableEq

/-- An exception escaping a coordinator operation to its caller. -/
inductive PyErr where
  | connectionError (msg : String)
  | valueError
deriving DecidableEq

/-- The mutable fields of NetworkDeviceCoordinator (__init__, lines 37-75).
The two transports are represented by the presence of their handles. -/
structure Coordinator where
  device : NetworkDevice
  config : NetworkConfig
  device_state : DeviceState := {}
  reader : Bool := false
  writer : Bool := false
  listen_task : TaskSlot := .noTask
  reconnect_task : TaskSlot := .noTask
  udp_transport : Bool := false
  connected : Bool := false
  connecting : Bool := false
  shutdown : Bool := false
  pending_response : FutureSlot := .noFuture
deriving DecidableEq

/-- Events emitted through _notify_state_change (each listener is invoked
with (key, value); listener exceptions are swallowed per listener). -/
abbrev Events := List (String × PyVal)

/-- The body of _connect_tcp (lines 113-156) given the outcome of the awaited
asyncio.open_connection. -/
def connectTcp (s : Coordinator) (outcome : ConnectOutcome) (now : Nat) :
    Bool × Coordinator × Events :=
  match outcome with
  | .ok =>
    let s1 := { s with
      reader := true, writer := true,
      connected := true,
      device_state := { s.device_state with
        connected := .vbool true, last_updated := .vtime now },
      listen_task :=
        if s.config.persistent_connection then .running else s.listen_task }
    (true, s1, [("connected", .vbool true)])
  | _ => (false, s, [])

/-- The body of _connect_udp (lines 158-190) given the outcome of the awaited
create_datagram_endpoint (which does not time out in the source). -/
def connectUdp (s : Coordinator) (outcome : ConnectOutcome) (now : Nat) :
    Bool × Coordinator × Events :=
  match outcome with
  | .ok =>
    let s1 := { s with
      udp_transport := true,
      connected := true,
      device_state := { s.device_state with
        connected := .vbool true, last_updated := .vtime now } }
    (true, s1, [("connected", .vbool true)])
  | _ => (false, s, [])

/-- async_connect (lines 97-111): an early return while connecting or
connected, otherwise set connecting and clear shutdown, run the transport
connect, and clear connecting in the finally block. -/
def asyncConnect (s : Coordinator) (outcome : ConnectOutcome) (now : Nat) :
    Bool × Coordinator × Events :=
  if s.connecting || s.connected then
    (s.connected, s, [])
  else
    let s1 := { s with connecting := true, shutdown := false }
    let r :=
      if s1.config.protocol = "tcp" then connectTcp s1 outcome now
      else connectUdp s1 outcome now
    (r.1, { r.2.1 with connecting := false }, r.2.2)

/-- Cancelling a task slot in async_disconnect: only a present, not-yet-done
task is cancelled, awaited and cleared; a completed task object is left in
the slot. -/
def cancelTaskSlot : TaskSlot → TaskSlot
  | .running => .noTask
  | t => t

/-- async_disconnect (lines 192-234): set the shutdown flag, cancel the
listener and reconnect tasks, close the TCP writer and the UDP transport,
flip connected off, stamp the time and notify.  The pending-response future
is not touched anywhere in this method. -/
def asyncDisconnect (s : Coordinator) (now : Nat) : Coordinator × Events :=
  let s1 := { s with shutdown := true }
  let s2 := { s1 with listen_task := cancelTaskSlot s1.listen_task }
  let s3 := { s2 with reconnect_task := cancelTaskSlot s2.reconnect_task }
  let s4 := if s3.writer then { s3 with writer := false, reader := false } else s3
  let s5 := if s4.udp_transport then
      { s4 with udp_transport := false } else s4
  let s6 := { s5 with
    connected := false,
    device_state := { s5.device_state with
      connected := .vbool false, last_updated := .vtime now } }
  (s6, [("connected", .vbool false)])

/-- _schedule_reconnect (lines 349-368): return without scheduling when
shutting down or when the reconnect-task slot already holds any task object
(running or completed; the guard tests truthiness, not doneness), otherwise
create the reconnect loop task.  The Bool reports whether a loop was
created. -/
def scheduleReconnect (s : Coordinator) : Coordinator × Bool :=
  if s.shutdown || s.reconnect_task ≠ .noTask then (s, false)
  else ({ s with reconnect_task := .running }, true)

/-- The tail of _listen_tcp (lines 265-270), run when the read loop has
exited through connection loss or an I/O error: unless shutting down, mark
disconnected, notify, and call _schedule_reconnect. -/
def onConnectionLoss (s : Coordinator) : Coordinator × Events × Bool :=
  if ¬ s.shutdown then
    let s1 := { s with
      connected := false,
      device_state := { s.device_state with connected := .vbool false } }
    let r := scheduleReconnect s1
    (r.1, [("connected", .vbool false)], r.2)
  else (s, [], false)

/-- One iteration of the reconnect() loop body (lines 354-366) after its
sleep, given the outcome of the inner async_connect; the Bool reports whether
the loop breaks (reconnected). -/
def reconnectIteration (s : Coordinator) (outcome : ConnectOutcome)
    (now : Nat) : Coordinator × Events × Bool :=
  if ¬ s.shutdown then
    let r := asyncConnect s outcome now
    (r.2.1, r.2.2, r.1)
  else (s, [], false)

/-- The asyncio runtime marking the reconnect task as completed once its
coroutine returns (the coordinator never clears the slot itself). -/
def reconnectTaskCompletes (s : Coordinator) : Coordinator :=
  if s.reconnect_task = .running then { s with reconnect_task := .done } else s

/-- _send_tcp (lines 416-444): without a writer raise ConnectionError (before
the pending future is created); otherwise create the future when waiting,
write, and await it under wait_for.  The arrival oracle is the line (if any)
that resolves the future within the timeout window; on timeout the method
returns None.  The finally block always clears the slot. -/
def sendTcp (s : Coordinator) (wait_for_response : Bool)
    (arrival : Option String) : Except PyErr (Option String) × Coordinator :=
  if ¬ s.writer then
    (.error (.connectionError "TCP connection not established"), s)
  else
    let result : Except PyErr (Option String) :=
      if wait_for_response then
        match arrival with
        | some line => .ok (some line)
        | none => .ok none
      else .ok none
    (result, { s with pending_response := .noFuture })

/-- _send_udp (lines 446-473): the same shape over the UDP transport. -/
def sendUdp (s : Coordinator) (wait_for_response : Bool)
    (arrival : Option String) : Except PyErr (Option String) × Coordinator :=
  if ¬ s.udp_transport then
    (.error (.connectionError "UDP transport not established"), s)
  else
    let result : Except PyErr (Option String) :=
      if wait_for_response then
        match arrival with
        | some line => .ok (some line)
        | none => .ok none
      else .ok none
    (result, { s with pending_response := .noFuture })

/-- async_send_command (lines 378-401): when not connected, one connect
attempt, failing which a ConnectionError is raised; _build_payload runs
outside any try, so a ValueError from bytes.fromhex propagates; the send
itself is logged and re-raised on error, so its result passes through. -/
def asyncSendCommand (s : Coordinator) (cmd : DeviceCommand)
    (wait_for_response : Bool) (connectOutcome : ConnectOutcome)
    (arrival : Option String) (now : Nat) :
    Except PyErr (Option String) × Coordinator × Events :=
  let pre :=
    if ¬ s.connected then
      let r := asyncConnect s connectOutcome now
      (r.1, r.2.1, r.2.2)
    else (true, s, ([] : Events))
  match pre with
  | (false, s1, ev) =>
    (.error (.connectionError ("Cannot connect to " ++ s.device.name)), s1, ev)
  | (true, s1, ev) =>
    match buildPayload cmd with
    | none => (.error .valueError, s1, ev)
    | some _ =>
      if s1.config.protocol = "tcp" then
        let r := sendTcp s1 wait_for_response arrival
        (r.1, r.2, ev)
      else
        let r := sendUdp s1 wait_for_response arrival
        (r.1, r.2, ev)

/-
Matrix routing command generation (api.py, network device creation handler,
lines around 683-708).
-/

/-- Left-to-right, non-overlapping replacement of every occurrence
(str.replace), fuel-recursive on the input length; progress is one character
per step, so the input length is enough fuel when the needle is nonempty. -/
def replaceAllAux (pat rep : List Char) : List Char → Nat → List Char
  | s, 0 => s
  | [], _ => []
  | c :: rest, fuel + 1 =>
    if pat.isPrefixOf (c :: rest) then
      rep ++ replaceAllAux pat rep ((c :: rest).drop pat.length) fuel
    else
      c :: replaceAllAux pat rep rest fuel

/-- Python str.replace(pat, rep): replaces all occurrences; an empty needle
inserts the replacement at every position. -/
def pyReplace (s pat rep : String) : String :=
  if pat = "" then
    String.mk (rep.toList ++ s.toList.flatMap (fun c => c :: rep.toList))
  else
    String.mk (replaceAllAux pat.toList rep.toList s.toList s.toList.length)

/-- Substring test over char lists. -/
def subAt (sub : List Char) : List Char → Bool
  | [] => sub.isEmpty
  | c :: rest => sub.isPrefixOf (c :: rest) || subAt sub rest

/-- Substring test (the Python in operator on strings). -/
def strContainsSub (s sub : String) : Bool :=
  subAt sub.toList s.toList

/-- One entry of the matrix_config inputs/outputs JSON lists; get("index", 1)
and get("name", default) read these optional keys. -/
structure EndpointInfo where
  index : Option Int := none
  name : Option String := none
deriving DecidableEq

/-- info.get("index", 1). -/
def epIndex (e : EndpointInfo) : Int := e.index.getD 1

/-- The generated command id f"route_in{input_idx}_out{output_idx}". -/
def routeCommandId (i o : Int) : String :=
  "route_in" ++ toString i ++ "_out" ++ toString o

/-- NetworkDevice.add_command: self.commands[command.command_id] = command. -/
def addCommand (d : NetworkDevice) (c : DeviceCommand) : NetworkDevice :=
  { d with commands := dictSet d.commands c.command_id c }

/-- The routing DeviceCommand built for one input/output pair: the payload is
the template with the placeholders replaced by the pair's indices. -/
def mkRoutingCommand (template : String) (le : LineEnding)
    (i_info o_info : EndpointInfo) : DeviceCommand :=
  let i := epIndex i_info
  let o := epIndex o_info
  let input_name := i_info.name.getD ("HDMI " ++ toString i)
  let output_name := o_info.name.getD ("Output " ++ toString o)
  { command_id := routeCommandId i o,
    name := input_name ++ " → " ++ output_name,
    format := .text,
    payload :=
      pyReplace (pyReplace template "{input}" (toString i)) "{output}"
        (toString o),
    line_ending := le,
    is_input_option := true,
    input_value := toString i }

/-- The placeholder command of the no-template branch (old behavior). -/
def mkPlaceholderCommand (i_info : EndpointInfo) : DeviceCommand :=
  let i := epIndex i_info
  { command_id := "input_" ++ toString i,
    name := i_info.name.getD ("HDMI " ++ toString i),
    format := .text,
    payload := "input_" ++ toString i,
    line_ending := .nothing,
    is_input_option := true,
    input_value := toString i }

/-- The routing-command generation loop of the matrix branch of the network
device creation handler: when the template holds both placeholders, one
command per output x input pair is added (outputs outer, inputs inner);
otherwise placeholder input commands are added. -/
def generateMatrixCommands (dev : NetworkDevice) (template : String)
    (le : LineEnding) (inputs outputs : List EndpointInfo) : NetworkDevice :=
  if template ≠ "" ∧ strContainsSub template "{input}"
      ∧ strContainsSub template "{output}" then
    outputs.foldl
      (fun d o_info =>
        inputs.foldl
          (fun d2 i_info => addCommand d2 (mkRoutingCommand template le i_info o_info))
          d)
      dev
  else
    inputs.foldl (fun d i_info => addCommand d (mkPlaceholderCommand i_info)) dev

/-
Helper lemmas.
-/

/-- matchList over a non-matching head pattern. -/
theorem matchList_cons_none {p : ResponsePattern} {line : String}
    (ps : List ResponsePattern) (h : matchPattern p line = none) :
    matchList (p :: ps) line = matchList ps line := by
  simp [matchList, List.filterMap_cons, h]

/-- matchList over a matching head pattern. -/
theorem matchList_cons_some {p : ResponsePattern} {line : String}
    {kv : String × String} (ps : List ResponsePattern)
    (h : matchPattern p line = some kv) :
    matchList (p :: ps) line = kv :: matchList ps line := by
  simp [matchList, List.filterMap_cons, h]

/-- parseResponseAux is the fold of DeviceState.update over the matching
patterns, paired with the matched (state_key, value) notification list. -/
theorem parseResponseAux_eq (line : String) (now : Nat)
    (ps : List ResponsePattern) (st : DeviceState) :
    parseResponseAux line now ps st
      = (applyMatches now (matchList ps line) st).map
          (fun st1 => (st1, matchList ps line)) := by
  induction ps generalizing st with
  | nil => simp [parseResponseAux, matchList, applyMatches]
  | cons p ps ih =>
    cases hm : matchPattern p line with
    | none =>
      rw [matchList_cons_none ps hm]
      simp only [parseResponseAux, hm]
      exact ih st
    | some kv =>
      obtain ⟨k, v⟩ := kv
      rw [matchList_cons_some ps hm]
      simp only [parseResponseAux, hm, applyMatches]
      cases hu : DeviceState.update st k (.vstr v) now with
      | none => simp
      | some st1 =>
        dsimp only
        rw [ih st1]
        cases applyMatches now (matchList ps line) st1 <;> simp

/-- A list without a closing parenthesis cannot be split at one. -/
theorem splitCloseParen_eq_none (l : List Char) (h : ')' ∉ l) :
    splitCloseParen l = none := by
  induction l with
  | nil => rfl
  | cons c rest ih =>
    simp only [List.mem_cons, not_or] at h
    simp [splitCloseParen, Ne.symm h.1, ih h.2]

/-- An unterminated subpattern does not compile, whatever the fuel. -/
theorem compileAux_unterminated (cs : List Char) (h1 : '(' ∈ cs)
    (h2 : ')' ∉ cs) : ∀ fuel, compileAux cs fuel = none := by
  induction cs with
  | nil => cases h1
  | cons c rest ih =>
    intro fuel
    simp only [List.mem_cons, not_or] at h2
    cases fuel with
    | zero => rfl
    | succ n =>
      by_cases hc : c = '('
      · subst hc
        simp [compileAux, splitCloseParen_eq_none rest h2.2]
      · have hrest : '(' ∈ rest := by
          rcases List.mem_cons.mp h1 with h | h
          · exact absurd h.symm hc
          · exact h
        by_cases hm : isRxMeta c = true
        · simp [compileAux, hc, hm]
        · simp [compileAux, hc, hm, ih hrest h2.2]

/-- A pattern string with an unterminated subpattern does not compile. -/
theorem rxCompile_invalid (s : String) (h : InvalidRx s) :
    rxCompile s = none :=
  compileAux_unterminated s.toList h.1 h.2 _

/-- _match_pattern skips a pattern whose regular expression is invalid
(re.error is caught and logged). -/
theorem matchPattern_invalid (p : ResponsePattern) (line : String)
    (h : InvalidRx p.pattern) : matchPattern p line = none := by
  unfold matchPattern
  by_cases he : p.pattern = ""
  · simp [he]
  · simp [he, rxCompile_invalid p.pattern h]

/-- _match_pattern skips a pattern whose configured capture group is out of
range on the matched line (IndexError is caught and logged). -/
theorem matchPattern_groupMissing (p : ResponsePattern) (line : String)
    (h : groupMissing p line = true) : matchPattern p line = none := by
  unfold matchPattern
  unfold groupMissing at h
  simp only [String.toList] at h ⊢
  by_cases he : p.pattern = ""
  · simp [he]
  · simp only [he, if_false]
    cases hc : rxCompile p.pattern with
    | none => simp
    | some rs =>
      rw [hc] at h
      dsimp only at h ⊢
      cases hs : rxSearch rs line.data with
      | none => simp [hs]
      | some wc =>
        obtain ⟨whole, caps⟩ := wc
        rw [hs] at h
        have hg : groupGet whole caps p.value_group = none := by
          simpa using h
        simp [hs, hg]

/-- A pattern that yields no match leaves the matched-pair list of the other
patterns unchanged. -/
theorem matchList_middle_none (bad : ResponsePattern) (line : String)
    (l1 l2 : List ResponsePattern) (h : matchPattern bad line = none) :
    matchList (l1 ++ bad :: l2) line = matchList (l1 ++ l2) line := by
  simp [matchList, List.filterMap_append, List.filterMap_cons, h]

/-- Assigning a key makes it readable (d[k] = v then d.get(k)). -/
theorem dictGet_dictSet (d : List (String × α)) (k : String) (v : α) :
    dictGet (dictSet d k v) k = some v := by
  unfold dictSet
  by_cases h : d.any (fun kv => kv.1 = k)
  · simp only [h, if_true]
    induction d with
    | nil => simp at h
    | cons kv rest ih =>
      by_cases hk : kv.1 = k
      · simp [dictGet, List.find?, hk]
      · have : rest.any (fun kv => kv.1 = k) := by
          simp only [List.any_cons, hk] at h
          simpa using h
        simp only [List.map_cons, if_neg hk]
        simpa [dictGet, List.find?, hk] using ih this
  · simp only [h, if_false]
    induction d with
    | nil => simp [dictGet, List.find?]
    | cons kv rest ih =>
      simp only [List.any_cons, Bool.or_eq_true, not_or] at h
      have hk : ¬ kv.1 = k := by simpa using h.1
      simp only [List.cons_append]
      simpa [dictGet, List.find?, hk] using ih (by simpa using h.2)

/-
Concrete fixtures shared by witnesses and counterexamples.
-/

/-- A TCP network device with default configuration. -/
def fixDevice : NetworkDevice := { device_id := "matrix1", name := "Matrix" }

/-- A coordinator connected over TCP with the background listener running. -/
def fixConnected : Coordinator :=
  { device := fixDevice, config := fixDevice.network_config,
    connected := true, writer := true, reader := true,
    listen_task := .running }

/-- The connected coordinator with a synchronous send pending (the
pending-response future created by _send_tcp, not yet resolved). -/
def fixPendingWait : Coordinator :=
  { fixConnected with pending_response := .pending }

/-
C1.  The claim: async_disconnect resolves a pending synchronous wait
promptly.  The code never touches _pending_response in async_disconnect
(lines 192-234), so the pending future stays unresolved and the caller's
wait inside _send_tcp settles only when its own wait_for timeout elapses,
returning None.
-/

/-- C1 counterexample: with a synchronous send pending, async_disconnect
leaves the pending-response future exactly as it was — still unresolved
(future.done() is false after the disconnect), so the disconnect does not
resolve the pending wait. -/
theorem disconnect_pending_wait_cex :
    ((asyncDisconnect fixPendingWait 5).1).pending_response = .pending
    ∧ FutureSlot.isDone ((asyncDisconnect fixPendingWait 5).1).pending_response
        = false := by
  constructor <;> rfl

/-- C1 amended: async_disconnect never resolves (nor clears) the pending
wait — the pending-response slot is unchanged by it for every coordinator
state; the pending wait is settled only by its own response timeout, from
which _send_tcp returns an empty result (None) and clears the slot, so the
wait is bounded by the full timeout but not failed promptly on disconnect. -/
theorem disconnect_pending_wait_amended :
    (∀ (s : Coordinator) (now : Nat),
      ((asyncDisconnect s now).1).pending_response = s.pending_response)
    ∧ (∀ s : Coordinator, s.writer = true →
      sendTcp s true none = (.ok none, { s with pending_response := .noFuture })) := by
  constructor
  · intro s now
    simp only [asyncDisconnect]
    split <;> split <;> rfl
  · intro s h
    simp [sendTcp, h]

/-- C1 witness for the amended theorem at the concrete pending-wait state. -/
theorem disconnect_pending_wait_amended_witness :
    ((asyncDisconnect fixPendingWait 5).1).pending_response
        = fixPendingWait.pending_response
    ∧ sendTcp fixPendingWait true none
        = (.ok none, { fixPendingWait with pending_response := .noFuture }) :=
  ⟨disconnect_pending_wait_amended.1 fixPendingWait 5,
   disconnect_pending_wait_amended.2 fixPendingWait rfl⟩

/-
C2.  The claim: every connection loss (with shutdown false) schedules
exactly one reconnection loop, including losses after an earlier loop has
completed.  The guard of _schedule_reconnect (line 351) tests the truthiness
of self._reconnect_task, which is never cleared when the loop finishes, so a
completed loop's stale task object blocks every later scheduling.
-/

/-- C2: after a first connection loss (which does schedule a loop), a
successful reconnect iteration and the completion of the loop task, a second
connection loss marks the device disconnected but schedules no reconnection
loop at all — the stale completed task in _reconnect_task makes the
_schedule_reconnect guard return early, contradicting the claimed
"exactly one reconnection loop for every connection loss" as well as the
source's own comment "Connection lost, attempt reconnect if not shutting
down". -/
theorem stale_reconnect_task_blocks_rescheduling :
    (onConnectionLoss fixConnected).2.2 = true
    ∧ (reconnectIteration (onConnectionLoss fixConnected).1 .ok 1).2.2 = true
    ∧ (reconnectIteration (onConnectionLoss fixConnected).1 .ok 1).1.connected
        = true
    ∧ (reconnectTaskCompletes
        (reconnectIteration (onConnectionLoss fixConnected).1 .ok 1).1).reconnect_task
        = .done
    ∧ (onConnectionLoss (reconnectTaskCompletes
        (reconnectIteration (onConnectionLoss fixConnected).1 .ok 1).1)).2.2
        = false
    ∧ (onConnectionLoss (reconnectTaskCompletes
        (reconnectIteration (onConnectionLoss fixConnected).1 .ok 1).1)).1.connected
        = false
    ∧ (onConnectionLoss (reconnectTaskCompletes
        (reconnectIteration (onConnectionLoss fixConnected).1 .ok 1).1)).1.reconnect_task
        = .done := by
  refine ⟨rfl, rfl, rfl, rfl, rfl, rfl, rfl⟩

/-
C3.  The claim: a malformed hex payload never propagates an error to the
caller of async_send_command.  _build_payload is called outside every
try/except (line 390), so the ValueError of bytes.fromhex escapes to the
caller.
-/

/-- A hex command whose payload is not valid hex. -/
def fixBadHexCmd : DeviceCommand :=
  { command_id := "bad", name := "Bad", format := .hex, payload := "ZZ" }

/-- The C3 claim's allowed outcomes: a value, an empty result, or a typed
connection error. -/
def ResultOkOrConnErr (r : Except PyErr (Option String)) : Prop :=
  (∃ v, r = .ok v) ∨ (∃ m, r = .error (.connectionError m))

/-- C3 counterexample: sending a malformed-hex command while connected makes
async_send_command raise a ValueError to the caller — not a value, not an
empty result, not a connection error. -/
theorem send_command_bad_hex_cex :
    (asyncSendCommand fixConnected fixBadHexCmd false .ok none 0).1
        = .error .valueError
    ∧ ¬ ResultOkOrConnErr
        (asyncSendCommand fixConnected fixBadHexCmd false .ok none 0).1 := by
  refine ⟨rfl, ?_⟩
  rw [ResultOkOrConnErr,
    show (asyncSendCommand fixConnected fixBadHexCmd false .ok none 0).1
      = .error .valueError from rfl]
  rintro (⟨v, hv⟩ | ⟨m, hm⟩) <;> simp_all

/-- C3 amended: for every command with format hex whose payload string is not
valid hex, calling async_send_command while connected propagates the
uncaught ValueError of bytes.fromhex to the caller (the coordinator state is
untouched and no listener is notified); only response-pattern parse errors
are logged and skipped. -/
theorem send_command_bad_hex_propagates (s : Coordinator)
    (cmd : DeviceCommand) (w : Bool) (co : ConnectOutcome)
    (arrival : Option String) (now : Nat) (hc : s.connected = true)
    (hf : cmd.format = .hex)
    (hp : pyFromhex (removeSpaces cmd.payload) = none) :
    asyncSendCommand s cmd w co arrival now = (.error .valueError, s, []) := by
  simp [asyncSendCommand, hc, buildPayload, hf, hp]

/-- C3 witness for the amended theorem at the concrete malformed command. -/
theorem send_command_bad_hex_propagates_witness :
    asyncSendCommand fixConnected fixBadHexCmd false .ok none 0
      = (.error .valueError, fixConnected, []) :=
  send_command_bad_hex_propagates fixConnected fixBadHexCmd false .ok none 0
    rfl rfl rfl

/-
C4.  The payload codec.
-/

/-- C4: _build_payload is a deterministic function of the command; whenever
it produces bytes they decompose as a body (the hex-decoded payload for
format hex — spaces being immaterial — or the UTF-8 bytes of the payload
otherwise) followed by exactly the configured line-ending bytes; the hex
payload "A5 01 FF" yields the bytes 0xA5 0x01 0xFF before the line ending
for each of the five line-ending kinds, whose byte sequences are b"",
b"\r", b"\n", b"\r\n" and b"!". -/
theorem build_payload_spec :
    (∀ cmd1 cmd2 : DeviceCommand, cmd1 = cmd2 →
      buildPayload cmd1 = buildPayload cmd2)
    ∧ (∀ (cmd : DeviceCommand) (bs : List Nat), buildPayload cmd = some bs →
        ∃ body, bs = body ++ lineEndingBytes cmd.line_ending
          ∧ (cmd.format = .hex →
              pyFromhex (removeSpaces cmd.payload) = some body)
          ∧ (cmd.format ≠ .hex → body = utf8Bytes cmd.payload))
    ∧ (∀ le : LineEnding,
        buildPayload { command_id := "c", name := "c", format := .hex,
                       payload := "A5 01 FF", line_ending := le }
          = some ([0xA5, 0x01, 0xFF] ++ lineEndingBytes le))
    ∧ lineEndingBytes .nothing = [] ∧ lineEndingBytes .cr = [13]
    ∧ lineEndingBytes .lf = [10] ∧ lineEndingBytes .crlf = [13, 10]
    ∧ lineEndingBytes .exclamation = [33] := by
  refine ⟨fun c1 c2 h => by rw [h], ?_, fun le => by cases le <;> decide,
    rfl, rfl, rfl, rfl, rfl⟩
  intro cmd bs h
  unfold buildPayload at h
  cases hf : cmd.format with
  | hex =>
    rw [hf] at h
    cases hx : pyFromhex (removeSpaces cmd.payload) with
    | none => rw [hx] at h; simp at h
    | some body =>
      rw [hx] at h
      have hb : bs = body ++ lineEndingBytes cmd.line_ending := by
        simpa using h.symm
      exact ⟨body, hb, fun _ => rfl, fun hne => absurd rfl hne⟩
  | text =>
    rw [hf] at h
    have hb : bs = utf8Bytes cmd.payload ++ lineEndingBytes cmd.line_ending := by
      simpa using h.symm
    exact ⟨utf8Bytes cmd.payload, hb, fun hcontra => absurd hcontra (by decide),
      fun _ => rfl⟩
  | ir_code =>
    rw [hf] at h
    have hb : bs = utf8Bytes cmd.payload ++ lineEndingBytes cmd.line_ending := by
      simpa using h.symm
    exact ⟨utf8Bytes cmd.payload, hb, fun hcontra => absurd hcontra (by decide),
      fun _ => rfl⟩

/-- C4 witness at the hex round-trip example with CRLF line ending. -/
theorem build_payload_spec_witness :
    ∃ body, ([0xA5, 0x01, 0xFF, 13, 10] : List Nat)
        = body ++ lineEndingBytes LineEnding.crlf
      ∧ (CommandFormat.hex = CommandFormat.hex →
          pyFromhex (removeSpaces "A5 01 FF") = some body)
      ∧ (CommandFormat.hex ≠ CommandFormat.hex →
          body = utf8Bytes "A5 01 FF") :=
  build_payload_spec.2.1
    { command_id := "c", name := "c", format := .hex,
      payload := "A5 01 FF", line_ending := .crlf }
    [0xA5, 0x01, 0xFF, 13, 10] (by decide)

/-
C7.  Idempotent connect.
-/

/-- C7: async_connect called while connecting or connected returns the
current connected status with the coordinator state unchanged and no event
emitted — no second connection attempt, no second transport session, no new
listener task; in particular two successive connect calls on an
already-connected coordinator both return true and leave the state (hence
the single live transport session) untouched. -/
theorem async_connect_idempotent :
    (∀ (s : Coordinator) (outcome : ConnectOutcome) (now : Nat),
      (s.connecting || s.connected) = true →
      asyncConnect s outcome now = (s.connected, s, []))
    ∧ (∀ (s : Coordinator) (o1 o2 : ConnectOutcome) (n1 n2 : Nat),
        s.connected = true →
        (asyncConnect s o1 n1).1 = true
        ∧ (asyncConnect (asyncConnect s o1 n1).2.1 o2 n2).1 = true
        ∧ (asyncConnect (asyncConnect s o1 n1).2.1 o2 n2).2.1 = s) := by
  have base : ∀ (s : Coordinator) (outcome : ConnectOutcome) (now : Nat),
      (s.connecting || s.connected) = true →
      asyncConnect s outcome now = (s.connected, s, []) := by
    intro s outcome now h
    simp [asyncConnect, h]
  refine ⟨base, fun s o1 o2 n1 n2 hc => ?_⟩
  have h1 : (s.connecting || s.connected) = true := by simp [hc]
  rw [base s o1 n1 h1]
  simp [base s o2 n2 h1, hc]

/-- C7 witness at the concrete connected coordinator. -/
theorem async_connect_idempotent_witness :
    asyncConnect fixConnected .ok 3 = (fixConnected.connected, fixConnected, [])
    ∧ (asyncConnect fixConnected .ok 3).1 = true :=
  ⟨async_connect_idempotent.1 fixConnected .ok 3 rfl,
   (async_connect_idempotent.2 fixConnected .ok .ok 3 4 rfl).1⟩

/-
C8.  Response timeout returns None.
-/

/-- C8: when a send waits for a response and no inbound line resolves the
pending slot within the requested timeout, _send_tcp (and _send_udp alike)
clears the pending-response slot in its finally block and returns an empty
reply (ok None) to the caller — no exception is raised, so a silent device
is distinguishable from an unreachable one (which raises ConnectionError). -/
theorem send_wait_timeout_returns_none (s : Coordinator) :
    (s.writer = true →
      sendTcp s true none = (.ok none, { s with pending_response := .noFuture }))
    ∧ (s.udp_transport = true →
      sendUdp s true none
        = (.ok none, { s with pending_response := .noFuture })) := by
  constructor
  · intro h; simp [sendTcp, h]
  · intro h; simp [sendUdp, h]

/-- A coordinator connected over UDP. -/
def fixUdpConnected : Coordinator :=
  { device := fixDevice, config := { protocol := "udp" },
    connected := true, udp_transport := true }

/-- C8 witness: the timeout path evaluated on concrete TCP and UDP states. -/
theorem send_wait_timeout_returns_none_witness :
    sendTcp fixConnected true none
      = (.ok none, { fixConnected with pending_response := .noFuture })
    ∧ sendUdp fixUdpConnected true none
      = (.ok none, { fixUdpConnected with pending_response := .noFuture }) :=
  ⟨(send_wait_timeout_returns_none fixConnected).1 rfl,
   (send_wait_timeout_returns_none fixUdpConnected).2 rfl⟩

/-
C5.  Response pattern matching and state updates.
-/

/-- The power pattern of the spec example. -/
def fixPwPattern : ResponsePattern :=
  { pattern := "PW(ON|STANDBY)", state_key := "power", value_group := 1,
    value_map := [("ON", "on"), ("STANDBY", "off")] }

/-- A device with the power pattern as its single global pattern. -/
def fixAvrDevice : NetworkDevice :=
  { device_id := "avr1", name := "AVR",
    global_response_patterns := [fixPwPattern] }

/-- A per-command pattern writing a non-field state key. -/
def fixZonePattern : ResponsePattern :=
  { pattern := "Z2(ON|OFF)", state_key := "zone2", value_group := 1,
    value_map := [("ON", "on"), ("OFF", "off")] }

/-- A query command carrying the zone pattern. -/
def fixQueryCmd : DeviceCommand :=
  { command_id := "q", name := "Query", is_query := true,
    response_patterns := [fixZonePattern] }

/-- A device with one global pattern and one command-scoped pattern. -/
def fixZoneDevice : NetworkDevice :=
  { device_id := "avr2", name := "AVR2",
    commands := [("q", fixQueryCmd)],
    global_response_patterns := [fixPwPattern] }

/-- C5 counterexample: on the claim's own example the code does nothing —
re.search("PW(ON|STANDBY)", "PW ON", re.IGNORECASE) finds no match, because
the pattern requires ON or STANDBY to follow PW immediately and the line has
a space there; the device state is unchanged (power stays "unknown") and no
listener is notified, so the line "PW ON" does not set power to "on". -/
theorem parse_response_pw_space_cex :
    parseResponse fixAvrDevice {} "PW ON" 7 = some ({}, [])
    ∧ matchPattern fixPwPattern "PW ON" = none
    ∧ ({} : DeviceState).power = .vstr "unknown" := by
  refine ⟨by decide, by decide, rfl⟩

/-- C5 amended: _parse_response evaluates every global ResponsePattern and
then every per-command ResponsePattern of all commands against the line; the
run is the fold of DeviceState.update over the matching patterns in that
order, notifying exactly the matched (state_key, value) pairs; matching is
case-insensitive, the configured capture group is extracted from the line,
the value remap is applied, and the value lands in the named fixed field or
otherwise in custom_states.  The example line must be "PWON" (not "PW ON"):
it sets state.power to "on" and notifies ("power", "on"), as does its
lower-case form "pwon"; a per-command pattern likewise routes "Z2ON" into
custom_states under "zone2". -/
theorem parse_response_patterns_amended :
    (∀ (dev : NetworkDevice) (st : DeviceState) (line : String) (now : Nat),
      parseResponse dev st line now
        = parseResponseAux line now
            (dev.global_response_patterns ++ commandPatterns dev) st)
    ∧ (∀ (ps : List ResponsePattern) (st : DeviceState) (line : String)
        (now : Nat),
        parseResponseAux line now ps st
          = (applyMatches now (matchList ps line) st).map
              (fun st1 => (st1, matchList ps line)))
    ∧ parseResponse fixAvrDevice {} "PWON" 7
        = some ({ power := .vstr "on", last_updated := .vtime 7 },
                [("power", "on")])
    ∧ parseResponse fixAvrDevice {} "pwon" 7
        = some ({ power := .vstr "on", last_updated := .vtime 7 },
                [("power", "on")])
    ∧ parseResponse fixZoneDevice {} "Z2ON" 3
        = some ({ custom_states := .vdict [("zone2", "on")],
                  last_updated := .vtime 3 },
                [("zone2", "on")]) := by
  refine ⟨fun dev st line now => rfl,
    fun ps st line now => parseResponseAux_eq line now ps st,
    by decide, by decide, by decide⟩

/-
C6.  Invalid patterns are skipped and do not interfere.
-/

/-- C6: a pattern whose regular expression is invalid (an unterminated
subpattern, which Python rejects with re.error) or whose configured capture
group is out of range on the line is skipped — _match_pattern catches the
error, logs it and yields no match — and removing it from the pattern list
changes neither the resulting device state nor the notifications, so every
other valid pattern on the same line still matches and updates state. -/
theorem invalid_pattern_skipped (bad : ResponsePattern) (line : String)
    (l1 l2 : List ResponsePattern) (st : DeviceState) (now : Nat)
    (h : InvalidRx bad.pattern ∨ groupMissing bad line = true) :
    matchPattern bad line = none
    ∧ parseResponseAux line now (l1 ++ bad :: l2) st
      = parseResponseAux line now (l1 ++ l2) st := by
  have hm : matchPattern bad line = none := by
    rcases h with h | h
    · exact matchPattern_invalid bad line h
    · exact matchPattern_groupMissing bad line h
  refine ⟨hm, ?_⟩
  rw [parseResponseAux_eq, parseResponseAux_eq,
    matchList_middle_none bad line l1 l2 hm]

/-- A pattern with an unterminated subpattern (re.error in Python). -/
def fixBadPattern : ResponsePattern :=
  { pattern := "PW(ON", state_key := "power", value_group := 1 }

/-- C6 witness: the invalid pattern placed before the valid power pattern is
skipped, the parse is the same as without it, and the valid pattern still
sets power from the same line. -/
theorem invalid_pattern_skipped_witness :
    (matchPattern fixBadPattern "PWON" = none
      ∧ parseResponseAux "PWON" 7 ([] ++ fixBadPattern :: [fixPwPattern]) {}
        = parseResponseAux "PWON" 7 ([] ++ [fixPwPattern]) {})
    ∧ parseResponseAux "PWON" 7 [fixBadPattern, fixPwPattern] {}
      = some ({ power := .vstr "on", last_updated := .vtime 7 },
              [("power", "on")]) :=
  ⟨invalid_pattern_skipped fixBadPattern "PWON" [] [fixPwPattern] {} 7
      (Or.inl (by decide)),
   by decide⟩

/-
C9.  Matrix routing template expansion.
-/

/-- The routing commands generated by the template branch, one per
output x input pair, in generation order (outputs outer, inputs inner). -/
def routingCommandList (template : String) (le : LineEnding)
    (inputs outputs : List EndpointInfo) : List DeviceCommand :=
  outputs.flatMap
    (fun o_info => inputs.map (fun i_info => mkRoutingCommand template le i_info o_info))

/-- Folding over a flatMap is the nested fold. -/
theorem foldl_flatMap (f : β → α → β) (g : γ → List α) (l : List γ)
    (init : β) :
    (l.flatMap g).foldl f init
      = l.foldl (fun acc c => (g c).foldl f acc) init := by
  induction l generalizing init with
  | nil => rfl
  | cons c cs ih => simp [List.flatMap_cons, List.foldl_append, ih]

/-- Assigning a fresh key appends it. -/
theorem dictSet_not_mem (d : List (String × α)) (k : String) (v : α)
    (h : ∀ kv ∈ d, kv.1 ≠ k) : dictSet d k v = d ++ [(k, v)] := by
  unfold dictSet
  rw [if_neg]
  simp only [List.any_eq_true, decide_eq_true_eq, not_exists]
  intro kv
  by_cases hkv : kv ∈ d
  · simp [hkv, h kv hkv]
  · simp [hkv]

/-- Adding a list of commands with pairwise-distinct ids, all fresh for the
device, appends the corresponding dict entries in order. -/
theorem foldl_addCommand_commands (cs : List DeviceCommand)
    (dev : NetworkDevice)
    (hdisj : ∀ c ∈ cs, ∀ kv ∈ dev.commands, kv.1 ≠ c.command_id)
    (hnodup : (cs.map (fun c => c.command_id)).Nodup) :
    (cs.foldl addCommand dev).commands
      = dev.commands ++ cs.map (fun c => (c.command_id, c)) := by
  induction cs generalizing dev with
  | nil => simp
  | cons c cs ih =>
    have hstep : (addCommand dev c).commands
        = dev.commands ++ [(c.command_id, c)] := by
      simp only [addCommand]
      exact dictSet_not_mem dev.commands c.command_id c
        (fun kv hkv => hdisj c (by simp) kv hkv)
    have hn : (∀ x ∈ cs, ¬ x.command_id = c.command_id)
        ∧ (cs.map (fun c => c.command_id)).Nodup := by simpa using hnodup
    rw [List.foldl_cons, ih (addCommand dev c) ?_ hn.2]
    · rw [hstep]; simp
    · intro c2 hc2 kv hkv
      rw [hstep] at hkv
      rcases List.mem_append.mp hkv with hkv | hkv
      · exact hdisj c2 (by simp [hc2]) kv hkv
      · have hkv2 : kv = (c.command_id, c) := by simpa using hkv
        subst hkv2
        intro hcontra
        exact hn.1 c2 hc2 hcontra.symm

/-- The generated routing-command list has one element per pair. -/
theorem length_routingCommandList (template : String) (le : LineEnding)
    (inputs outputs : List EndpointInfo) :
    (routingCommandList template le inputs outputs).length
      = inputs.length * outputs.length := by
  unfold routingCommandList
  induction outputs with
  | nil => simp
  | cons o os ih =>
    simp only [List.flatMap_cons, List.length_append, List.length_map, ih,
      List.length_cons]
    ring

/-- C9: for a device whose command dict starts empty and a routing template
holding both placeholders, the generation loop produces exactly one routing
command per input x output pair — the command dict becomes the pair list in
generation order, with |inputs| * |outputs| entries — and each generated
payload is the template with the input and output placeholders replaced by
the pair's indices (the distinct-ids hypothesis holds whenever the input
indices and the output indices are each distinct, as matrix port indices
are). -/
theorem matrix_template_expansion (template : String) (le : LineEnding)
    (inputs outputs : List EndpointInfo) (dev : NetworkDevice)
    (hempty : dev.commands = [])
    (ht1 : template ≠ "") (ht2 : strContainsSub template "{input}" = true)
    (ht3 : strContainsSub template "{output}" = true)
    (hnodup : ((routingCommandList template le inputs outputs).map
        (fun c => c.command_id)).Nodup) :
    (generateMatrixCommands dev template le inputs outputs).commands
      = (routingCommandList template le inputs outputs).map
          (fun c => (c.command_id, c))
    ∧ (generateMatrixCommands dev template le inputs outputs).commands.length
        = inputs.length * outputs.length
    ∧ (∀ i_info ∈ inputs, ∀ o_info ∈ outputs,
        (mkRoutingCommand template le i_info o_info).payload
          = pyReplace (pyReplace template "{input}" (toString (epIndex i_info)))
              "{output}" (toString (epIndex o_info))
        ∧ mkRoutingCommand template le i_info o_info
            ∈ routingCommandList template le inputs outputs) := by
  have hgen : generateMatrixCommands dev template le inputs outputs
      = (routingCommandList template le inputs outputs).foldl addCommand dev := by
    rw [generateMatrixCommands, if_pos ⟨ht1, ht2, ht3⟩, routingCommandList,
      foldl_flatMap]
    simp only [List.foldl_map]
  have hcmds : (generateMatrixCommands dev template le inputs outputs).commands
      = (routingCommandList template le inputs outputs).map
          (fun c => (c.command_id, c)) := by
    rw [hgen, foldl_addCommand_commands _ dev
      (fun c _ kv hkv => by rw [hempty] at hkv; cases hkv) hnodup, hempty]
    simp
  refine ⟨hcmds, ?_, ?_⟩
  · rw [hcmds, List.length_map, length_routingCommandList]
  · intro i_info hi o_info ho
    refine ⟨rfl, ?_⟩
    simp only [routingCommandList, List.mem_flatMap, List.mem_map]
    exact ⟨o_info, ho, i_info, hi, rfl⟩

/-- Matrix fixture: inputs 1 and 2. -/
def fixMatrixInputs : List EndpointInfo := [{ index := some 1 }, { index := some 2 }]

/-- Matrix fixture: output 1. -/
def fixMatrixOutputs : List EndpointInfo := [{ index := some 1 }]

/-- Matrix fixture: a device with no commands yet. -/
def fixMatrixDev : NetworkDevice := { device_id := "hdmi", name := "HDMI Matrix" }

/-- The routing template of the spec example. -/
def fixTemplate : String := "s cir {input} {output}!"

/-- C9 witness: template "s cir {input} {output}!" with inputs [1, 2] and
outputs [1] yields exactly two commands whose payloads are "s cir 1 1!" and
"s cir 2 1!". -/
theorem matrix_template_expansion_witness :
    ((generateMatrixCommands fixMatrixDev fixTemplate .nothing
        fixMatrixInputs fixMatrixOutputs).commands
      = (routingCommandList fixTemplate .nothing fixMatrixInputs
          fixMatrixOutputs).map (fun c => (c.command_id, c))
    ∧ (generateMatrixCommands fixMatrixDev fixTemplate .nothing
        fixMatrixInputs fixMatrixOutputs).commands.length
      = fixMatrixInputs.length * fixMatrixOutputs.length)
    ∧ ((generateMatrixCommands fixMatrixDev fixTemplate .nothing
        fixMatrixInputs fixMatrixOutputs).commands.map
          (fun kv => kv.2.payload))
      = ["s cir 1 1!", "s cir 2 1!"] :=
  ⟨⟨(matrix_template_expansion fixTemplate .nothing fixMatrixInputs
      fixMatrixOutputs fixMatrixDev rfl (by decide) (by decide) (by decide)
      (by decide)).1,
    (matrix_template_expansion fixTemplate .nothing fixMatrixInputs
      fixMatrixOutputs fixMatrixDev rfl (by decide) (by decide) (by decide)
      (by decide)).2.1⟩,
   by decide⟩

/-
C10.  DeviceState.update.
-/

/-- C10: DeviceState.update(key, value) performs setattr(self, key, value)
whenever the instance has any attribute named key — fields and class methods
alike, with no type checking, so the written value is read back unchanged
through getattr (for every key other than last_updated, which the final
timestamp assignment overwrites) — otherwise it stores str(value) into
custom_states[key]; and in both branches it then refreshes last_updated to
the current time.  "update" itself is such a method name: updating it
shadows the method with the value. -/
theorem device_state_update_spec (st : DeviceState) (key : String)
    (value : PyVal) (now : Nat) :
    (dsHasattr key = true →
      st.update key value now
        = some { dsSetattr st key value with last_updated := .vtime now })
    ∧ (dsHasattr key = false → ∀ d, st.custom_states = .vdict d →
        st.update key value now
          = some { st with
              custom_states := .vdict (dictSet d key (pyStr value)),
              last_updated := .vtime now })
    ∧ (dsHasattr key = true → key ≠ "last_updated" →
        dsGetattr { dsSetattr st key value with last_updated := .vtime now } key
          = some value)
    ∧ dsHasattr "update" = true
    ∧ (∀ st1, st.update key value now = some st1 →
        st1.last_updated = .vtime now) := by
  refine ⟨fun h => by simp [DeviceState.update, h],
    fun h d hd => by simp [DeviceState.update, h, hd], ?_, by decide, ?_⟩
  · intro _ hk
    unfold dsSetattr dsGetattr
    split_ifs <;> simp_all [dictGet_dictSet]
  · intro st1 h
    simp only [DeviceState.update, Option.map_eq_some'] at h
    obtain ⟨a, _, hf⟩ := h
    rw [← hf]

/-- C10 witness: a field write ("power"), a custom-state write with str()
("zone2" with an int), an unchecked type write (a string into "volume") and
a method shadow ("update"). -/
theorem device_state_update_spec_witness :
    ({} : DeviceState).update "power" (.vstr "on") 4
      = some { dsSetattr {} "power" (.vstr "on") with last_updated := .vtime 4 }
    ∧ ({} : DeviceState).update "zone2" (.vint 3) 4
      = some { ({} : DeviceState) with
          custom_states := .vdict (dictSet [] "zone2" (pyStr (.vint 3))),
          last_updated := .vtime 4 }
    ∧ dsGetattr { dsSetattr {} "volume" (.vstr "loud") with
          last_updated := .vtime 4 } "volume"
      = some (.vstr "loud")
    ∧ dsGetattr { dsSetattr {} "update" (.vstr "shadowed") with
          last_updated := .vtime 4 } "update"
      = some (.vstr "shadowed") :=
  ⟨(device_state_update_spec {} "power" (.vstr "on") 4).1 (by decide),
   (device_state_update_spec {} "zone2" (.vint 3) 4).2.1 (by decide) [] rfl,
   (device_state_update_spec {} "volume" (.vstr "loud") 4).2.2.1 (by decide)
     (by decide),
   (device_state_update_spec {} "update" (.vstr "shadowed") 4).2.2.1 (by decide)
     (by decide)⟩

end VdaIr
